import Mathlib

set_option maxHeartbeats 1000000
set_option maxRecDepth 4096

/-!
Shallow embedding of the lofty-rs tag abstraction and conversion layer:
`src/properties.rs` (`FileProperties`, `ChannelMask`), `src/traits.rs`
(the `AudioTagEdit` provided methods and `ToAnyTag::to_dyn_tag`) and
`src/macros.rs` (the `From<Box<dyn AudioTag>>` conversion stamped out by
`impl_tag!`). Types that the given sources only reference (`Picture`,
`Album`, `AnyTag`, the concrete tag wrappers and their `From<AnyTag>`
impls) are modelled from the specification and marked as such.
-/

/-- Modelled from the spec: `Picture`, an owned image, "format tag + raw
bytes" (the type itself is defined outside the given sources). Raw bytes
are modelled as a list of byte values. -/
structure Picture where
  format : String
  data : List Nat
  deriving DecidableEq

/-- Modelled from the spec: the `Album` aggregate returned by
`AudioTagEdit::album` — title, artists, cover (the type itself is defined
outside the given sources). -/
structure Album where
  title : Option String
  artists : Option (List String)
  cover : Option Picture
  deriving DecidableEq

/-- `ChannelMask` from `src/properties.rs`: a transparent wrapper around a
`u32` bit mask, modelled as `Nat` (every defined mask fits in 18 bits, and
bitwise or/and of `u32` values cannot overflow). -/
structure ChannelMask where
  val : Nat
  deriving DecidableEq

/-- `define_channels!` constant `FRONT_LEFT => 0`, i.e. `Self(1 << 0)`. -/
def ChannelMask.FRONT_LEFT : ChannelMask := ⟨1 <<< 0⟩

/-- `define_channels!` constant `FRONT_RIGHT => 1`. -/
def ChannelMask.FRONT_RIGHT : ChannelMask := ⟨1 <<< 1⟩

/-- `define_channels!` constant `FRONT_CENTER => 2`. -/
def ChannelMask.FRONT_CENTER : ChannelMask := ⟨1 <<< 2⟩

/-- `define_channels!` constant `LOW_FREQUENCY => 3`. -/
def ChannelMask.LOW_FREQUENCY : ChannelMask := ⟨1 <<< 3⟩

/-- `define_channels!` constant `BACK_LEFT => 4`. -/
def ChannelMask.BACK_LEFT : ChannelMask := ⟨1 <<< 4⟩

/-- `define_channels!` constant `BACK_RIGHT => 5`. -/
def ChannelMask.BACK_RIGHT : ChannelMask := ⟨1 <<< 5⟩

/-- `define_channels!` constant `FRONT_LEFT_OF_CENTER => 6`. -/
def ChannelMask.FRONT_LEFT_OF_CENTER : ChannelMask := ⟨1 <<< 6⟩

/-- `define_channels!` constant `FRONT_RIGHT_OF_CENTER => 7`. -/
def ChannelMask.FRONT_RIGHT_OF_CENTER : ChannelMask := ⟨1 <<< 7⟩

/-- `define_channels!` constant `BACK_CENTER => 8`. -/
def ChannelMask.BACK_CENTER : ChannelMask := ⟨1 <<< 8⟩

/-- `define_channels!` constant `SIDE_LEFT => 9`. -/
def ChannelMask.SIDE_LEFT : ChannelMask := ⟨1 <<< 9⟩

/-- `define_channels!` constant `SIDE_RIGHT => 10`. -/
def ChannelMask.SIDE_RIGHT : ChannelMask := ⟨1 <<< 10⟩

/-- `define_channels!` constant `TOP_CENTER => 11`. -/
def ChannelMask.TOP_CENTER : ChannelMask := ⟨1 <<< 11⟩

/-- `define_channels!` constant `TOP_FRONT_LEFT => 12`. -/
def ChannelMask.TOP_FRONT_LEFT : ChannelMask := ⟨1 <<< 12⟩

/-- `define_channels!` constant `TOP_FRONT_CENTER => 13`. -/
def ChannelMask.TOP_FRONT_CENTER : ChannelMask := ⟨1 <<< 13⟩

/-- `define_channels!` constant `TOP_FRONT_RIGHT => 14`. -/
def ChannelMask.TOP_FRONT_RIGHT : ChannelMask := ⟨1 <<< 14⟩

/-- `define_channels!` constant `TOP_BACK_LEFT => 15`. -/
def ChannelMask.TOP_BACK_LEFT : ChannelMask := ⟨1 <<< 15⟩

/-- `define_channels!` constant `TOP_BACK_CENTER => 16`. -/
def ChannelMask.TOP_BACK_CENTER : ChannelMask := ⟨1 <<< 16⟩

/-- `define_channels!` constant `TOP_BACK_RIGHT => 17`. -/
def ChannelMask.TOP_BACK_RIGHT : ChannelMask := ⟨1 <<< 17⟩

/-- `ChannelMask::mono`: a single front center channel. -/
def ChannelMask.mono : ChannelMask := ChannelMask.FRONT_CENTER

/-- `ChannelMask::stereo`: front left+right channels,
`Self(Self::FRONT_LEFT.0 | Self::FRONT_RIGHT.0)`. -/
def ChannelMask.stereo : ChannelMask :=
  ⟨ChannelMask.FRONT_LEFT.val ||| ChannelMask.FRONT_RIGHT.val⟩

/-- `ChannelMask::bits`: the raw bit mask. -/
def ChannelMask.bits (m : ChannelMask) : Nat := m.val

/-- `impl BitOr for ChannelMask`: `Self(self.0 | rhs.0)`. -/
def ChannelMask.bitor (a b : ChannelMask) : ChannelMask := ⟨a.val ||| b.val⟩

/-- `impl BitAnd for ChannelMask`: `Self(self.0 & rhs.0)`. -/
def ChannelMask.bitand (a b : ChannelMask) : ChannelMask := ⟨a.val &&& b.val⟩

/-- The 18 named `ChannelMask` constants in declared order. -/
def ChannelMask.constants : List ChannelMask :=
  [ChannelMask.FRONT_LEFT, ChannelMask.FRONT_RIGHT, ChannelMask.FRONT_CENTER,
   ChannelMask.LOW_FREQUENCY, ChannelMask.BACK_LEFT, ChannelMask.BACK_RIGHT,
   ChannelMask.FRONT_LEFT_OF_CENTER, ChannelMask.FRONT_RIGHT_OF_CENTER,
   ChannelMask.BACK_CENTER, ChannelMask.SIDE_LEFT, ChannelMask.SIDE_RIGHT,
   ChannelMask.TOP_CENTER, ChannelMask.TOP_FRONT_LEFT,
   ChannelMask.TOP_FRONT_CENTER, ChannelMask.TOP_FRONT_RIGHT,
   ChannelMask.TOP_BACK_LEFT, ChannelMask.TOP_BACK_CENTER,
   ChannelMask.TOP_BACK_RIGHT]

/-- The i-th declared channel constant (the fallback value of `getD` is never
reached since the list has length 18). -/
def channelConst (i : Fin 18) : ChannelMask :=
  ChannelMask.constants.getD i ⟨0⟩

/-- OR-combination of the channel constants selected by `f`, starting from the
derived default mask `0`: a mask "formed by OR-ing a set of constants". -/
def orFoldr (f : Fin 18 → Bool) (l : List (Fin 18)) : ChannelMask :=
  l.foldr (fun i acc => if f i then (channelConst i).bitor acc else acc) ⟨0⟩

/-- The mask obtained by OR-ing exactly the constants selected by `f`. -/
def maskOf (f : Fin 18 → Bool) : ChannelMask := orFoldr f (List.finRange 18)

/-- `FileProperties` from `src/properties.rs`. `std::time::Duration` is
modelled as a number of nanoseconds (`Nat`), with `Duration::ZERO` as `0`;
the `u32`/`u8` fields are modelled as `Nat`. -/
structure FileProperties where
  duration : Nat
  overall_bitrate : Option Nat
  audio_bitrate : Option Nat
  sample_rate : Option Nat
  bit_depth : Option Nat
  channels : Option Nat
  channel_mask : Option ChannelMask
  deriving DecidableEq

/-- `impl Default for FileProperties`: zero duration, every optional field
`None`. -/
def FileProperties.default : FileProperties :=
  { duration := 0, overall_bitrate := none, audio_bitrate := none,
    sample_rate := none, bit_depth := none, channels := none,
    channel_mask := none }

/-- `FileProperties::new`: stores each argument in the corresponding field;
the source getters (`duration()`, `overall_bitrate()`, ...) each return their
field, embedded here as the structure projections. -/
def FileProperties.new (duration : Nat)
    (overall_bitrate audio_bitrate sample_rate : Option Nat)
    (bit_depth channels : Option Nat)
    (channel_mask : Option ChannelMask) : FileProperties :=
  { duration, overall_bitrate, audio_bitrate, sample_rate, bit_depth,
    channels, channel_mask }

/-- Modelled from the spec: the observable state of a concrete tag wrapper
through the `AudioTagEdit` capability contract (the scheme-native inner
representations `Id3v2InnerTag` etc. are outside the given sources). Under
each scheme the common fields are: title, ordered artist list, year, album
title, ordered album-artist list, album cover, track/total-track and
disc/total-disc numbers (the `u16` numbers modelled as `Nat`). -/
structure TagData where
  title : Option String
  artist_list : List String
  year : Option Nat
  album_title : Option String
  album_artist_list : List String
  album_cover : Option Picture
  track_number : Option Nat
  total_tracks : Option Nat
  disc_number : Option Nat
  total_discs : Option Nat
  deriving DecidableEq

/-- `impl Default` / `new()` of a wrapper from `src/macros.rs`, delegating to
the inner type's default. Modelled from the spec: a freshly defaulted tag has
every field "not set". -/
def TagData.new : TagData :=
  { title := none, artist_list := [], year := none, album_title := none,
    album_artist_list := [], album_cover := none, track_number := none,
    total_tracks := none, disc_number := none, total_discs := none }

/-- `AudioTagEdit::set_title`. Modelled from the spec: stores the title. -/
def TagData.set_title (t : TagData) (v : String) : TagData :=
  { t with title := some v }

/-- `AudioTagEdit::remove_title`. Modelled from the spec: clears the title. -/
def TagData.remove_title (t : TagData) : TagData := { t with title := none }

/-- `AudioTagEdit::artist`. Modelled from the spec: the single "primary"
artist, the head of the artist list. -/
def TagData.artist (t : TagData) : Option String := t.artist_list.head?

/-- `AudioTagEdit::set_artist`. Modelled from the spec: sets the primary
artist, replacing the artist list. -/
def TagData.set_artist (t : TagData) (v : String) : TagData :=
  { t with artist_list := [v] }

/-- `AudioTagEdit::add_artist`. Modelled from the spec: appends to the
multi-valued artist list, keeping insertion order. -/
def TagData.add_artist (t : TagData) (v : String) : TagData :=
  { t with artist_list := t.artist_list ++ [v] }

/-- `AudioTagEdit::artists`. Modelled from the spec: the full ordered
sequence, or `None` if empty. -/
def TagData.artists (t : TagData) : Option (List String) :=
  if t.artist_list = [] then none else some t.artist_list

/-- `AudioTagEdit::remove_artist`. Modelled from the spec: clears the artist
list. -/
def TagData.remove_artist (t : TagData) : TagData :=
  { t with artist_list := [] }

/-- `AudioTagEdit::set_year`. -/
def TagData.set_year (t : TagData) (v : Nat) : TagData :=
  { t with year := some v }

/-- `AudioTagEdit::remove_year`. -/
def TagData.remove_year (t : TagData) : TagData := { t with year := none }

/-- `AudioTagEdit::set_album_title`. -/
def TagData.set_album_title (t : TagData) (v : String) : TagData :=
  { t with album_title := some v }

/-- `AudioTagEdit::remove_album_title`. -/
def TagData.remove_album_title (t : TagData) : TagData :=
  { t with album_title := none }

/-- `AudioTagEdit::album_artists`: the full ordered sequence, or `None` if
empty. Modelled from the spec (§3: album artists are an ordered sequence). -/
def TagData.album_artists (t : TagData) : Option (List String) :=
  if t.album_artist_list = [] then none else some t.album_artist_list

/-- `AudioTagEdit::set_album_artists`. Modelled from the spec: replaces the
album-artist sequence whole (the Rust signature carries the sequence as one
`String` value). -/
def TagData.set_album_artists (t : TagData) (l : List String) : TagData :=
  { t with album_artist_list := l }

/-- `AudioTagEdit::add_album_artist`. Modelled from the spec: appends. -/
def TagData.add_album_artist (t : TagData) (v : String) : TagData :=
  { t with album_artist_list := t.album_artist_list ++ [v] }

/-- `AudioTagEdit::remove_album_artists`. -/
def TagData.remove_album_artists (t : TagData) : TagData :=
  { t with album_artist_list := [] }

/-- `AudioTagEdit::set_album_cover`. -/
def TagData.set_album_cover (t : TagData) (p : Picture) : TagData :=
  { t with album_cover := some p }

/-- `AudioTagEdit::remove_album_cover`. -/
def TagData.remove_album_cover (t : TagData) : TagData :=
  { t with album_cover := none }

/-- `AudioTagEdit::set_track_number`. -/
def TagData.set_track_number (t : TagData) (v : Nat) : TagData :=
  { t with track_number := some v }

/-- `AudioTagEdit::remove_track_number`. -/
def TagData.remove_track_number (t : TagData) : TagData :=
  { t with track_number := none }

/-- `AudioTagEdit::set_total_tracks`. -/
def TagData.set_total_tracks (t : TagData) (v : Nat) : TagData :=
  { t with total_tracks := some v }

/-- `AudioTagEdit::remove_total_tracks`. -/
def TagData.remove_total_tracks (t : TagData) : TagData :=
  { t with total_tracks := none }

/-- `AudioTagEdit::set_disc_number`. -/
def TagData.set_disc_number (t : TagData) (v : Nat) : TagData :=
  { t with disc_number := some v }

/-- `AudioTagEdit::remove_disc_number`. -/
def TagData.remove_disc_number (t : TagData) : TagData :=
  { t with disc_number := none }

/-- `AudioTagEdit::set_total_discs`. -/
def TagData.set_total_discs (t : TagData) (v : Nat) : TagData :=
  { t with total_discs := some v }

/-- `AudioTagEdit::remove_total_discs`. -/
def TagData.remove_total_discs (t : TagData) : TagData :=
  { t with total_discs := none }

/-- `AudioTagEdit::album`, provided method (`src/traits.rs` lines 30-36):
composed from the three sub-accessors, not independently stored. -/
def TagData.album (t : TagData) : Album :=
  { title := t.album_title, artists := t.album_artists,
    cover := t.album_cover }

/-- `AudioTagEdit::track`, provided method (`src/traits.rs` lines 51-53):
the pair of track number and total tracks. -/
def TagData.track (t : TagData) : Option Nat × Option Nat :=
  (t.track_number, t.total_tracks)

/-- `AudioTagEdit::set_track`, provided method (`src/traits.rs` lines 54-56):
only calls `set_track_number`. -/
def TagData.set_track (t : TagData) (v : Nat) : TagData :=
  t.set_track_number v

/-- `AudioTagEdit::remove_track`, provided method (`src/traits.rs` lines
57-60): removes the track number, then the total tracks. -/
def TagData.remove_track (t : TagData) : TagData :=
  t.remove_track_number.remove_total_tracks

/-- `AudioTagEdit::disc`, provided method (`src/traits.rs` lines 70-72). -/
def TagData.disc (t : TagData) : Option Nat × Option Nat :=
  (t.disc_number, t.total_discs)

/-- `AudioTagEdit::set_disc`, provided method (`src/traits.rs` lines 73-75):
only calls `set_disc_number`. -/
def TagData.set_disc (t : TagData) (v : Nat) : TagData :=
  t.set_disc_number v

/-- `AudioTagEdit::remove_disc`, provided method (`src/traits.rs` lines
76-79): removes the disc number, then the total discs. -/
def TagData.remove_disc (t : TagData) : TagData :=
  t.remove_disc_number.remove_total_discs

/-- Modelled from the spec (§3): `AnyTag`, the format-agnostic projection of
the common field set — title, artist(s), album title/artist(s)/cover, and the
track/disc numbers, all optional. Note that the spec gives `AnyTag` no year
field. -/
structure AnyTag where
  title : Option String
  artists : Option (List String)
  album_title : Option String
  album_artists : Option (List String)
  album_cover : Option Picture
  track_number : Option Nat
  total_tracks : Option Nat
  disc_number : Option Nat
  total_discs : Option Nat
  deriving DecidableEq

/-- `ToAnyTag::to_anytag`. Modelled from the spec: the projection of the
common fields through the accessors (the per-wrapper `From<&$tag> for AnyTag`
impls are outside the given sources). -/
def TagData.to_anytag (t : TagData) : AnyTag :=
  { title := t.title, artists := t.artists, album_title := t.album_title,
    album_artists := t.album_artists, album_cover := t.album_cover,
    track_number := t.track_number, total_tracks := t.total_tracks,
    disc_number := t.disc_number, total_discs := t.total_discs }

/-- Modelled from the spec (§4.2 step 2, the generic path): construct a
default instance of the target and copy each field present in `AnyTag`
through the corresponding setter — title via `set_title`, artists via
repeated `add_artist` calls in original order, album fields via
`set_album_title`/`set_album_artists`/`set_album_cover`, track/disc numbers
via their setters; fields absent in `AnyTag` stay at the default. The
per-wrapper `From<AnyTag>` impls are outside the given sources. -/
def fromAnyTag (a : AnyTag) : TagData :=
  let t := TagData.new
  let t := match a.title with | some v => t.set_title v | none => t
  let t := (a.artists.getD []).foldl TagData.add_artist t
  let t := match a.album_title with | some v => t.set_album_title v | none => t
  let t := match a.album_artists with | some l => t.set_album_artists l | none => t
  let t := match a.album_cover with | some p => t.set_album_cover p | none => t
  let t := match a.track_number with | some n => t.set_track_number n | none => t
  let t := match a.total_tracks with | some n => t.set_total_tracks n | none => t
  let t := match a.disc_number with | some n => t.set_disc_number n | none => t
  let t := match a.total_discs with | some n => t.set_total_discs n | none => t
  t

/-- `TagType`: the closed enumeration of target schemes matched in
`ToAnyTag::to_dyn_tag` (all format features compiled in). -/
inductive TagType
  | Id3v2
  | Ogg
  | Opus
  | Flac
  | Mp4
  deriving DecidableEq

/-- The concrete wrapper tag types stamped out by `impl_tag!`: `Id3v2Tag`,
`VorbisTag` (shared by the Ogg family) and `Mp4Tag`. -/
inductive ConcreteTagType
  | Id3v2Tag
  | VorbisTag
  | Mp4Tag
  deriving DecidableEq

/-- A `Box<dyn AudioTag>`: the tag value together with its runtime concrete
type, which is what `to_any_mut().downcast_mut::<T>()` inspects. -/
structure DynTag where
  ct : ConcreteTagType
  data : TagData
  deriving DecidableEq

/-- `ToAnyTag::to_dyn_tag` (`src/traits.rs` lines 100-115): for every
requested `TagType` it boxes the wrapper built by `From<AnyTag>` from
`self.to_anytag()` — it always re-materializes through the `AnyTag`
projection (the TODO in the source notes the absent same-type shortcut). -/
def TagData.to_dyn_tag (t : TagData) (tag_type : TagType) : DynTag :=
  match tag_type with
  | TagType.Id3v2 => ⟨ConcreteTagType.Id3v2Tag, fromAnyTag t.to_anytag⟩
  | TagType.Ogg => ⟨ConcreteTagType.VorbisTag, fromAnyTag t.to_anytag⟩
  | TagType.Opus => ⟨ConcreteTagType.VorbisTag, fromAnyTag t.to_anytag⟩
  | TagType.Flac => ⟨ConcreteTagType.VorbisTag, fromAnyTag t.to_anytag⟩
  | TagType.Mp4 => ⟨ConcreteTagType.Mp4Tag, fromAnyTag t.to_anytag⟩

/-- The `$tag_type` each wrapper passes to `impl_tag!`. Modelled from the
spec (§6: the Vorbis Comment scheme covers the Ogg family, so `VorbisTag`
names one of its `TagType`s). -/
def wrapperTagType : ConcreteTagType → TagType
  | ConcreteTagType.Id3v2Tag => TagType.Id3v2
  | ConcreteTagType.VorbisTag => TagType.Ogg
  | ConcreteTagType.Mp4Tag => TagType.Mp4

/-- `impl From<Box<dyn AudioTag>> for $tag` (`src/macros.rs` lines 61-74):
if the runtime concrete type already matches the target, move the value out
unchanged (the `mem::replace` extraction); otherwise re-encode through
`to_dyn_tag` with the target's `TagType` and downcast, where `none` stands
for the `unwrap` on a failed downcast. -/
def fromDynTag (target : ConcreteTagType) (inp : DynTag) : Option TagData :=
  if inp.ct = target then some inp.data
  else
    let t := inp.data.to_dyn_tag (wrapperTagType target)
    if t.ct = target then some t.data else none

/-! ## Helper lemmas -/

/-- Folding `add_artist` over a list appends the list to the artist list and
changes nothing else. -/
theorem foldl_add_artist (l : List String) (t : TagData) :
    l.foldl TagData.add_artist t = { t with artist_list := t.artist_list ++ l } := by
  induction l generalizing t with
  | nil => simp
  | cons a l ih => simp [TagData.add_artist, ih]

/-- Re-materializing a tag through its `AnyTag` projection reproduces every
field except the year, which `AnyTag` does not carry. -/
theorem fromAnyTag_to_anytag (t : TagData) :
    fromAnyTag t.to_anytag = { t with year := none } := by
  obtain ⟨ti, al, y, abt, aal, ac, tn, tt, dn, td⟩ := t
  cases ti <;> cases abt <;> cases ac <;> cases tn <;> cases tt <;>
    cases dn <;> cases td <;> rcases al with _ | ⟨a, al⟩ <;>
    rcases aal with _ | ⟨b, aal⟩ <;>
    simp [fromAnyTag, TagData.to_anytag, TagData.artists, TagData.album_artists,
      TagData.new, TagData.set_title, TagData.set_album_title,
      TagData.set_album_artists, TagData.set_album_cover,
      TagData.set_track_number, TagData.set_total_tracks,
      TagData.set_disc_number, TagData.set_total_discs, foldl_add_artist,
      TagData.add_artist]

/-- Whatever the requested scheme, `to_dyn_tag` carries the tag built by the
generic path from the `AnyTag` projection. -/
theorem to_dyn_tag_data (t : TagData) (tag_type : TagType) :
    (t.to_dyn_tag tag_type).data = fromAnyTag t.to_anytag := by
  cases tag_type <;> rfl

/-- Converting with a wrapper's own `TagType` produces a box of exactly that
wrapper's concrete type. -/
theorem ct_to_dyn_tag_wrapper (t : TagData) (c : ConcreteTagType) :
    (t.to_dyn_tag (wrapperTagType c)).ct = c := by
  cases c <;> rfl

/-- The `artists` accessor reads absent exactly when the artist list is
empty. -/
theorem artists_eq_none (t : TagData) : t.artists = none ↔ t.artist_list = [] := by
  unfold TagData.artists
  split <;> simp_all

/-- The `album_artists` accessor reads absent exactly when the album-artist
list is empty. -/
theorem album_artists_eq_none (t : TagData) :
    t.album_artists = none ↔ t.album_artist_list = [] := by
  unfold TagData.album_artists
  split <;> simp_all

/-! ## Claim theorems -/

/-- Claim C1, counterexample: converting a tag that only has its year set to
its own scheme via `to_dyn_tag` does not return an observably equal value —
the year accessor reads absent afterwards, because `to_dyn_tag`
re-materializes through `AnyTag`, which carries no year. -/
theorem conversion_own_scheme_counterexample :
    ((TagData.new.set_year 2000).to_dyn_tag TagType.Id3v2).data.year ≠
      (TagData.new.set_year 2000).year := by
  decide

/-- Claim C1 (amended): converting a tag to its own scheme through
`From<Box<dyn AudioTag>>` returns the original value unchanged (the identity
short-circuit); converting through `to_dyn_tag` with the wrapper's own
`TagType` preserves every `AudioTagEdit` accessor except the year, which
reads absent because the `AnyTag` projection has no year field. -/
theorem conversion_own_scheme (t : TagData) (c : ConcreteTagType) :
    fromDynTag c ⟨c, t⟩ = some t ∧
    ((t.to_dyn_tag (wrapperTagType c)).data.title = t.title ∧
     (t.to_dyn_tag (wrapperTagType c)).data.artist = t.artist ∧
     (t.to_dyn_tag (wrapperTagType c)).data.artists = t.artists ∧
     (t.to_dyn_tag (wrapperTagType c)).data.album_title = t.album_title ∧
     (t.to_dyn_tag (wrapperTagType c)).data.album_artists = t.album_artists ∧
     (t.to_dyn_tag (wrapperTagType c)).data.album_cover = t.album_cover ∧
     (t.to_dyn_tag (wrapperTagType c)).data.track = t.track ∧
     (t.to_dyn_tag (wrapperTagType c)).data.disc = t.disc) ∧
    (t.to_dyn_tag (wrapperTagType c)).data.year = none := by
  refine ⟨by simp [fromDynTag], ?_, ?_⟩ <;>
    rw [to_dyn_tag_data, fromAnyTag_to_anytag]
  exact ⟨rfl, rfl, rfl, rfl, rfl, rfl, rfl, rfl⟩

/-- Claim C2: converting a tag with title, artist list, album title and
track number set to any compiled-in target scheme preserves those four
fields (artists in order), and the year — a field with no analogue in the
`AnyTag` projection — reads absent afterwards rather than causing an
error. -/
theorem conversion_field_preservation
    (src : TagData) (target : TagType) (ti abt : String) (al : List String)
    (n : Nat) (h1 : src.title = some ti) (h2 : src.artists = some al)
    (h3 : src.album_title = some abt) (h4 : src.track_number = some n) :
    (src.to_dyn_tag target).data.title = some ti ∧
    (src.to_dyn_tag target).data.artists = some al ∧
    (src.to_dyn_tag target).data.album_title = some abt ∧
    (src.to_dyn_tag target).data.track_number = some n ∧
    (src.to_dyn_tag target).data.year = none := by
  rw [to_dyn_tag_data, fromAnyTag_to_anytag]
  exact ⟨h1, h2, h3, h4, rfl⟩

/-- Claim C2, witness at a concrete tag converted to the Ogg scheme. -/
theorem conversion_field_preservation_witness :
    ((⟨some "t", ["a1", "a2"], some 3, some "al", [], none, some 7, none,
        none, none⟩ : TagData).to_dyn_tag TagType.Ogg).data.title = some "t" ∧
    ((⟨some "t", ["a1", "a2"], some 3, some "al", [], none, some 7, none,
        none, none⟩ : TagData).to_dyn_tag TagType.Ogg).data.artists =
      some ["a1", "a2"] ∧
    ((⟨some "t", ["a1", "a2"], some 3, some "al", [], none, some 7, none,
        none, none⟩ : TagData).to_dyn_tag TagType.Ogg).data.album_title =
      some "al" ∧
    ((⟨some "t", ["a1", "a2"], some 3, some "al", [], none, some 7, none,
        none, none⟩ : TagData).to_dyn_tag TagType.Ogg).data.track_number =
      some 7 ∧
    ((⟨some "t", ["a1", "a2"], some 3, some "al", [], none, some 7, none,
        none, none⟩ : TagData).to_dyn_tag TagType.Ogg).data.year = none :=
  conversion_field_preservation _ TagType.Ogg "t" "al" ["a1", "a2"] 7
    rfl rfl rfl rfl

/-- Claim C3: the conversion never fails — for every type-erased source and
every target wrapper type, the `From<Box<dyn AudioTag>>` conversion produces
a value (the only fallible step, the downcast `unwrap`, always succeeds);
`to_dyn_tag` itself is total by the exhaustive match on `TagType`. -/
theorem conversion_total (inp : DynTag) (target : ConcreteTagType) :
    (fromDynTag target inp).isSome = true := by
  by_cases h : inp.ct = target
  · simp [fromDynTag, h]
  · simp [fromDynTag, h, ct_to_dyn_tag_wrapper]

/-- Claim C4: `set_track` stores the track number and leaves the total
tracks untouched, so `track()` afterwards returns the pair of the new number
and the previous total; `remove_track` clears both the number and the
total. -/
theorem track_composition (t : TagData) (n : Nat) :
    (t.set_track n).track = (some n, t.total_tracks) ∧
    t.remove_track.track_number = none ∧
    t.remove_track.total_tracks = none :=
  ⟨rfl, rfl, rfl⟩

/-- Claim C5: every `remove_X` accessor is idempotent (twice equals once),
leaves the corresponding getter reading absent, and is a no-op on an
already-absent field. -/
theorem remove_idempotent (t : TagData) :
    (t.remove_title.remove_title = t.remove_title ∧
      t.remove_title.title = none ∧ (t.title = none → t.remove_title = t)) ∧
    (t.remove_artist.remove_artist = t.remove_artist ∧
      t.remove_artist.artists = none ∧
      (t.artists = none → t.remove_artist = t)) ∧
    (t.remove_year.remove_year = t.remove_year ∧
      t.remove_year.year = none ∧ (t.year = none → t.remove_year = t)) ∧
    (t.remove_album_title.remove_album_title = t.remove_album_title ∧
      t.remove_album_title.album_title = none ∧
      (t.album_title = none → t.remove_album_title = t)) ∧
    (t.remove_album_artists.remove_album_artists = t.remove_album_artists ∧
      t.remove_album_artists.album_artists = none ∧
      (t.album_artists = none → t.remove_album_artists = t)) ∧
    (t.remove_album_cover.remove_album_cover = t.remove_album_cover ∧
      t.remove_album_cover.album_cover = none ∧
      (t.album_cover = none → t.remove_album_cover = t)) ∧
    (t.remove_track.remove_track = t.remove_track ∧
      t.remove_track.track = (none, none) ∧
      (t.track = (none, none) → t.remove_track = t)) ∧
    (t.remove_track_number.remove_track_number = t.remove_track_number ∧
      t.remove_track_number.track_number = none ∧
      (t.track_number = none → t.remove_track_number = t)) ∧
    (t.remove_total_tracks.remove_total_tracks = t.remove_total_tracks ∧
      t.remove_total_tracks.total_tracks = none ∧
      (t.total_tracks = none → t.remove_total_tracks = t)) ∧
    (t.remove_disc.remove_disc = t.remove_disc ∧
      t.remove_disc.disc = (none, none) ∧
      (t.disc = (none, none) → t.remove_disc = t)) ∧
    (t.remove_disc_number.remove_disc_number = t.remove_disc_number ∧
      t.remove_disc_number.disc_number = none ∧
      (t.disc_number = none → t.remove_disc_number = t)) ∧
    (t.remove_total_discs.remove_total_discs = t.remove_total_discs ∧
      t.remove_total_discs.total_discs = none ∧
      (t.total_discs = none → t.remove_total_discs = t)) := by
  obtain ⟨ti, al, y, abt, aal, ac, tn, tt, dn, td⟩ := t
  refine ⟨⟨rfl, rfl, fun h => ?_⟩, ⟨rfl, ?_, fun h => ?_⟩,
    ⟨rfl, rfl, fun h => ?_⟩, ⟨rfl, rfl, fun h => ?_⟩, ⟨rfl, ?_, fun h => ?_⟩,
    ⟨rfl, rfl, fun h => ?_⟩, ⟨rfl, rfl, fun h => ?_⟩, ⟨rfl, rfl, fun h => ?_⟩,
    ⟨rfl, rfl, fun h => ?_⟩, ⟨rfl, rfl, fun h => ?_⟩, ⟨rfl, rfl, fun h => ?_⟩,
    ⟨rfl, rfl, fun h => ?_⟩⟩ <;>
  simp_all [TagData.remove_title, TagData.remove_artist, TagData.artists,
    TagData.remove_year, TagData.remove_album_title,
    TagData.remove_album_artists, TagData.album_artists,
    TagData.remove_album_cover, TagData.remove_track,
    TagData.remove_track_number, TagData.remove_total_tracks,
    TagData.remove_disc, TagData.remove_disc_number,
    TagData.remove_total_discs, TagData.track, TagData.disc,
    artists_eq_none, album_artists_eq_none]

/-- Claim C5, witness: on a freshly defaulted tag every field is already
absent, so removal is a no-op. -/
theorem remove_idempotent_witness :
    TagData.new.remove_title = TagData.new ∧
    TagData.new.remove_track = TagData.new := by
  have h := remove_idempotent TagData.new
  exact ⟨h.1.2.2 rfl, (h.2.2.2.2.2.2.1).2.2 rfl⟩

/-- Claim C6: channel-mask combination obeys boolean bit-set algebra — for
any two named constants `(A | B) & A = A`; `stereo` is front-left OR
front-right; `mono` is front-center; and `bits` is a homomorphism for `|`
and `&`. -/
theorem channel_mask_algebra :
    (∀ i j : Fin 18,
      ((channelConst i).bitor (channelConst j)).bitand (channelConst i) =
        channelConst i) ∧
    ChannelMask.stereo.bits =
      ChannelMask.FRONT_LEFT.bits ||| ChannelMask.FRONT_RIGHT.bits ∧
    ChannelMask.mono.bits = ChannelMask.FRONT_CENTER.bits ∧
    ∀ a b : ChannelMask,
      (a.bitor b).bits = a.bits ||| b.bits ∧
      (a.bitand b).bits = a.bits &&& b.bits :=
  ⟨by decide, rfl, rfl, fun a b => ⟨rfl, rfl⟩⟩

/-- Claim C7: `album()` is exactly the aggregate of the three sub-accessors
evaluated on the same state — its title, artists and cover equal
`album_title()`, `album_artists()` and `album_cover()`. -/
theorem album_composed (t : TagData) :
    t.album.title = t.album_title ∧ t.album.artists = t.album_artists ∧
    t.album.cover = t.album_cover :=
  ⟨rfl, rfl, rfl⟩

/-- Claim C8: the default `FileProperties` has zero duration and every
optional field `None`, and the getters of `FileProperties::new` return
exactly the arguments passed. -/
theorem file_properties_accessors :
    (FileProperties.default.duration = 0 ∧
     FileProperties.default.overall_bitrate = none ∧
     FileProperties.default.audio_bitrate = none ∧
     FileProperties.default.sample_rate = none ∧
     FileProperties.default.bit_depth = none ∧
     FileProperties.default.channels = none ∧
     FileProperties.default.channel_mask = none) ∧
    ∀ (d : Nat) (ob ab sr bd ch : Option Nat) (cm : Option ChannelMask),
      (FileProperties.new d ob ab sr bd ch cm).duration = d ∧
      (FileProperties.new d ob ab sr bd ch cm).overall_bitrate = ob ∧
      (FileProperties.new d ob ab sr bd ch cm).audio_bitrate = ab ∧
      (FileProperties.new d ob ab sr bd ch cm).sample_rate = sr ∧
      (FileProperties.new d ob ab sr bd ch cm).bit_depth = bd ∧
      (FileProperties.new d ob ab sr bd ch cm).channels = ch ∧
      (FileProperties.new d ob ab sr bd ch cm).channel_mask = cm :=
  ⟨⟨rfl, rfl, rfl, rfl, rfl, rfl, rfl⟩,
   fun _ _ _ _ _ _ _ => ⟨rfl, rfl, rfl, rfl, rfl, rfl, rfl⟩⟩

/-- Claim C9: in the fallback branch of `From<Box<dyn AudioTag>>` the
downcast `unwrap` never panics — for every source whose concrete type is not
the target's, `to_dyn_tag` with the target's `TagType` returns a box of
exactly the target concrete type, so the conversion returns its contents. -/
theorem downcast_fallback_succeeds (inp : DynTag) (target : ConcreteTagType)
    (h : inp.ct ≠ target) :
    (inp.data.to_dyn_tag (wrapperTagType target)).ct = target ∧
    fromDynTag target inp =
      some (inp.data.to_dyn_tag (wrapperTagType target)).data := by
  refine ⟨ct_to_dyn_tag_wrapper _ _, ?_⟩
  simp [fromDynTag, h, ct_to_dyn_tag_wrapper]

/-- Claim C9, witness: a Vorbis-typed source converted into the ID3v2
wrapper type goes through the fallback branch and the downcast succeeds. -/
theorem downcast_fallback_succeeds_witness :
    (TagData.new.to_dyn_tag (wrapperTagType ConcreteTagType.Id3v2Tag)).ct =
      ConcreteTagType.Id3v2Tag ∧
    fromDynTag ConcreteTagType.Id3v2Tag
        ⟨ConcreteTagType.VorbisTag, TagData.new⟩ =
      some (TagData.new.to_dyn_tag
        (wrapperTagType ConcreteTagType.Id3v2Tag)).data :=
  downcast_fallback_succeeds ⟨ConcreteTagType.VorbisTag, TagData.new⟩
    ConcreteTagType.Id3v2Tag (by decide)

/-- Each declared channel constant carries the single bit `2 ^ i`. -/
theorem channelConst_bits (i : Fin 18) : (channelConst i).bits = 2 ^ (i : Nat) := by
  revert i
  decide

/-- `bits` commutes with `bitor` (by definition of `BitOr`). -/
theorem bits_bitor (a b : ChannelMask) : (a.bitor b).bits = a.bits ||| b.bits := rfl

/-- Unfolding `orFoldr` on the empty list. -/
theorem orFoldr_nil (f : Fin 18 → Bool) : orFoldr f [] = ⟨0⟩ := rfl

/-- Unfolding `orFoldr` on a cons. -/
theorem orFoldr_cons (f : Fin 18 → Bool) (i : Fin 18) (l : List (Fin 18)) :
    orFoldr f (i :: l) =
      if f i then (channelConst i).bitor (orFoldr f l) else orFoldr f l := rfl

/-- Bit `k` of an OR-combination over a list of constant indices is set
exactly when some selected index in the list is `k`. -/
theorem orFoldr_testBit (f : Fin 18 → Bool) (l : List (Fin 18)) (k : Nat) :
    ((orFoldr f l).bits).testBit k =
      l.any fun i => f i && decide ((i : Nat) = k) := by
  induction l with
  | nil =>
    rw [orFoldr_nil]
    simp [ChannelMask.bits]
  | cons i l ih =>
    rw [orFoldr_cons, List.any_cons]
    by_cases h : f i = true
    · rw [if_pos h, h, Bool.true_and, bits_bitor, Nat.testBit_lor, ih,
        channelConst_bits, Nat.testBit_two_pow]
    · have h' : f i = false := by simpa using h
      rw [if_neg h, h', Bool.false_and, Bool.false_or, ih]

/-- Bit `i` of the mask OR-ed from the constants selected by `f` reads back
exactly `f i`: the mask determines which constants were combined. -/
theorem maskOf_testBit (f : Fin 18 → Bool) (i : Fin 18) :
    ((maskOf f).bits).testBit (i : Nat) = f i := by
  rw [show maskOf f = orFoldr f (List.finRange 18) from rfl, orFoldr_testBit]
  cases hf : f i with
  | true => exact List.any_eq_true.mpr ⟨i, List.mem_finRange i, by simp [hf]⟩
  | false =>
    apply List.any_eq_false.mpr
    intro j hj
    by_cases hji : j = i
    · subst hji; simp [hf]
    · simp [Fin.val_inj, hji]

/-- Claim C10: the 18 named channel constants are exactly the single-bit
values `1 << 0` through `1 << 17` in declared order, any two distinct
constants have empty intersection, and a mask formed by OR-ing a set of
constants uniquely determines which constants were combined. -/
theorem channel_constants_single_bit :
    (∀ i : Fin 18, (channelConst i).bits = 1 <<< (i : Nat)) ∧
    (∀ i j : Fin 18, i ≠ j →
      ((channelConst i).bitand (channelConst j)).bits = 0) ∧
    ∀ f g : Fin 18 → Bool, maskOf f = maskOf g → f = g := by
  refine ⟨by decide, by decide, fun f g h => funext fun i => ?_⟩
  rw [← maskOf_testBit f i, ← maskOf_testBit g i, h]

/-- Claim C10, witness: the first two constants are disjoint, and equal
masks come from equal constant sets. -/
theorem channel_constants_single_bit_witness :
    ((channelConst 0).bitand (channelConst 1)).bits = 0 ∧
    (fun _ : Fin 18 => false) = (fun _ : Fin 18 => false) :=
  ⟨channel_constants_single_bit.2.1 0 1 (by decide),
   channel_constants_single_bit.2.2 _ _ rfl⟩
